import Mathlib

/-!
Verification of the NoobBook backend agent subsystem.

This file gives a shallow embedding of the Python sources:
  backend/app/services/ai_agents/business_report_agent_service.py
  backend/app/services/tool_executors/business_report_tool_executor.py
  backend/app/services/tool_executors/email_tool_executor.py
  backend/app/services/tool_executors/presentation_tool_executor.py
  backend/app/utils/excalidraw_utils.py

External collaborators (the LLM client, the job-status store, the file
storage layer, the imagen service, the nested CSV-analyzer agent, the
uuid generator and the builtin hash) are modelled as oracles passed in
through environment records; side effects on the job store and the file
system are recorded as an explicit effect trace.  Python dicts are
modelled as structures with Option fields (a missing key is none);
dict.get with a default becomes Option.getD.
-/

/-! ## Excalidraw utilities (excalidraw_utils.py)

Numbers are modelled as rationals: the Python code performs true
division by 2 and multiplication by 0.6 / 1.2, which are exact in Rat.
-/

/-- A simplified element dict as received from the model (all keys optional). -/
structure SimpleElem where
  type : Option String := none
  x : Option Rat := none
  y : Option Rat := none
  strokeColor : Option String := none
  backgroundColor : Option String := none
  fillStyle : Option String := none
  strokeWidth : Option Rat := none
  width : Option Rat := none
  height : Option Rat := none
  label : Option String := none
  text : Option String := none
  fontSize : Option Rat := none
  points : Option (List (Rat × Rat)) := none
deriving DecidableEq

/-- A full Excalidraw element dict.  Keys that only some branches set are
Option fields defaulting to none (key absent). -/
structure ExElem where
  id : String
  type : String
  x : Rat
  y : Rat
  strokeColor : String
  backgroundColor : String
  fillStyle : String
  strokeWidth : Rat
  roughness : Rat
  opacity : Rat
  seed : Nat
  version : Nat
  isDeleted : Bool
  groupIds : List String
  boundElements : Option Unit
  locked : Bool
  width : Option Rat := none
  height : Option Rat := none
  text : Option String := none
  fontSize : Option Rat := none
  fontFamily : Option Nat := none
  textAlign : Option String := none
  verticalAlign : Option String := none
  baseline : Option Rat := none
  containerId : Option String := none
  originalText : Option String := none
  points : Option (List (Rat × Rat)) := none
  lastCommittedPoint : Option (Rat × Rat) := none
  startBinding : Option Unit := none
  endBinding : Option Unit := none
  startArrowhead : Option String := none
  endArrowhead : Option String := none
deriving DecidableEq

/-- `_build_text_properties`: the dict the text branch merges into the base. -/
def build_text_properties (e : SimpleElem) (base : ExElem) : ExElem :=
  let textContent := e.text.getD "Text"
  let fontSize := e.fontSize.getD 16
  { base with
    text := some textContent
    fontSize := some fontSize
    fontFamily := some 1
    textAlign := some "left"
    verticalAlign := some "top"
    baseline := some fontSize
    width := some ((textContent.length : Rat) * fontSize * (3 / 5))
    height := some (fontSize * (6 / 5))
    containerId := none
    originalText := some textContent }

/-- `_build_line_properties`: the dict the line/arrow branch merges into the base. -/
def build_line_properties (e : SimpleElem) (elemType : String) (base : ExElem) : ExElem :=
  let pts := e.points.getD [(0, 0), (100, 0)]
  { base with
    points := some pts
    lastCommittedPoint := some (pts.getLast?.getD (0, 0))
    startBinding := none
    endBinding := none
    startArrowhead := none
    endArrowhead := if elemType = "arrow" then some "arrow" else none }

/-- The base element of the loop body of `convert_to_excalidraw_elements`,
including the branch on the element type.  `hashF` models the Python
builtin `hash`, `elemId` the generated uuid fragment. -/
def mkBaseElem (elemId : String) (hashF : String → Nat) (e : SimpleElem) : ExElem :=
  let elemType := e.type.getD "rectangle"
  let base : ExElem :=
    { id := elemId
      type := elemType
      x := e.x.getD 0
      y := e.y.getD 0
      strokeColor := e.strokeColor.getD "#000000"
      backgroundColor := e.backgroundColor.getD "transparent"
      fillStyle := e.fillStyle.getD "hachure"
      strokeWidth := e.strokeWidth.getD 1
      roughness := 1
      opacity := 100
      seed := hashF elemId % 1000000
      version := 1
      isDeleted := false
      groupIds := []
      boundElements := none
      locked := false }
  if elemType = "text" then
    build_text_properties e base
  else if elemType = "line" ∨ elemType = "arrow" then
    build_line_properties e elemType base
  else
    { base with width := some (e.width.getD 100), height := some (e.height.getD 50) }

/-- `_build_label_element`. -/
def build_label_element (labelId : String) (hashF : String → Nat)
    (e : SimpleElem) (label : String) : ExElem :=
  { id := labelId
    type := "text"
    x := e.x.getD 0 + e.width.getD 100 / 2 - (label.length : Rat) * 4
    y := e.y.getD 0 + e.height.getD 50 / 2 - 8
    text := some label
    fontSize := some 14
    fontFamily := some 1
    textAlign := some "center"
    verticalAlign := some "middle"
    strokeColor := "#666666"
    backgroundColor := "transparent"
    fillStyle := "solid"
    strokeWidth := 1
    roughness := 1
    opacity := 100
    seed := hashF labelId % 1000000
    version := 1
    isDeleted := false
    groupIds := []
    boundElements := none
    locked := false
    width := some ((label.length : Rat) * 8)
    height := some 18
    baseline := some 14
    containerId := none
    originalText := some label }

/-- The guard `if label and elem_type in ["rectangle", "ellipse", "diamond"]`
(with `elem_type` the defaulted type; a missing or empty label is falsy). -/
def hasShapeLabel (e : SimpleElem) : Bool :=
  let elemType := e.type.getD "rectangle"
  (e.label.getD "") ≠ "" &&
    (elemType == "rectangle" || elemType == "ellipse" || elemType == "diamond")

/-- The iteration of `convert_to_excalidraw_elements`: `ctr` counts uuid
draws so far (`ids` is the uuid oracle). -/
def convertGo (ids : Nat → String) (hashF : String → Nat) :
    Nat → List SimpleElem → List ExElem
  | _, [] => []
  | ctr, e :: es =>
    let base := mkBaseElem (ids ctr) hashF e
    if hasShapeLabel e then
      base :: build_label_element (ids (ctr + 1)) hashF e (e.label.getD "") ::
        convertGo ids hashF (ctr + 2) es
    else
      base :: convertGo ids hashF (ctr + 1) es

/-- `convert_to_excalidraw_elements`. -/
def convert_to_excalidraw_elements (ids : Nat → String) (hashF : String → Nat)
    (elements : List SimpleElem) : List ExElem :=
  convertGo ids hashF 0 elements

/-! ## Shared data for the tool executors -/

/-- A chart record collected by `_execute_analyze_csv`.  The field `sect`
models the dict key "section" (a reserved word in Lean). -/
structure ChartInfo where
  filename : String
  title : String
  sect : String
  url : String
deriving DecidableEq

/-- An analysis record collected by `_execute_analyze_csv`. -/
structure AnalysisInfo where
  query : String
  summary : String
  chart_paths : List String
  section_context : String
deriving DecidableEq

/-- A slide-metadata record collected by `_handle_create_slide`. -/
structure SlideInfo where
  filename : String
  slide_number : Nat
  slide_type : String
deriving DecidableEq

/-- An image record built by `_handle_generate_image`. -/
structure ImageInfo where
  section_name : String
  filename : String
  placeholder : String
  url : String
deriving DecidableEq

/-- The tool-input dict handed to an executor (union of the keys the three
executors read; a missing key is none).  The input key `aspect_ratio` is
modelled by the field `aspect`; the key `total_slides` by `total_slides`. -/
structure ToolInput where
  title : Option String := none
  sections : Option (List String) := none
  csv_source_id : Option String := none
  analysis_query : Option String := none
  section_context : Option String := none
  source_id : Option String := none
  search_query : Option String := none
  markdown_content : Option String := none
  charts_included : Option (List String) := none
  template_name : Option String := none
  template_type : Option String := none
  color_scheme : Option String := none
  layout_notes : Option String := none
  section_name : Option String := none
  image_prompt : Option String := none
  aspect : Option String := none
  html_code : Option String := none
  subject_line_suggestion : Option String := none
  preheader_text : Option String := none
  presentation_title : Option String := none
  slides : Option (List String) := none
  presentation_type : Option String := none
  target_audience : Option String := none
  design_system : Option String := none
  style_notes : Option String := none
  content : Option String := none
  slide_number : Option Nat := none
  slide_type : Option String := none
  summary : Option String := none
  total_slides : Option Nat := none
  slides_created : Option (List String) := none
  design_notes : Option String := none
deriving DecidableEq

/-- Which job store an update targets (`update_business_report_job`,
`update_email_job`, `update_presentation_job`). -/
inductive JobKind
  | businessReport
  | email
  | presentation
deriving DecidableEq

/-- The keyword arguments of a job-store update call.  The status fields the
claims inspect are modelled exactly; the names of the remaining keyword
arguments of the call are recorded in `payload`. -/
structure JobUpdate where
  status : Option String := none
  status_message : Option String := none
  error_message : Option String := none
  markdown_file : Option String := none
  payload : List String := []
deriving DecidableEq

/-- An observable side effect on an external collaborator. -/
inductive Effect
  | updateJob (kind : JobKind) (project job : String) (u : JobUpdate)
  | writeFile (filename content : String)
  | saveExecution (project job : String)
deriving DecidableEq

/-- Whether an effect is a job-record update. -/
def Effect.isUpdate : Effect → Bool
  | .updateJob _ _ _ _ => true
  | _ => false

/-- Whether an effect is a file write. -/
def Effect.isWrite : Effect → Bool
  | .writeFile _ _ => true
  | _ => false

/-- Python `str.replace` on character lists: scan left to right, replace
each non-overlapping occurrence of `pat`, and continue after the replaced
occurrence (the replacement text is not rescanned).  `skip` counts the
characters of a just-matched occurrence still to consume.  (For an empty
pattern this copies the input unchanged; the executors only call it with
nonempty parenthesised or quoted patterns.) -/
def replaceAux (pat rep : List Char) : List Char → Nat → List Char
  | [], _ => []
  | _ :: cs, skip + 1 => replaceAux pat rep cs skip
  | c :: cs, 0 =>
    if pat ≠ [] ∧ pat.isPrefixOf (c :: cs) then
      rep ++ replaceAux pat rep cs (pat.length - 1)
    else
      c :: replaceAux pat rep cs 0

/-- Python `s.replace(pattern, replacement)`. -/
def pyReplace (s pattern replacement : String) : String :=
  ⟨replaceAux pattern.data replacement.data s.data 0⟩

/-- Python `s.startswith(p)` (on character lists). -/
def pyStartsWith (s p : String) : Bool :=
  p.data.isPrefixOf s.data

/-- Python `s.endswith(p)` (on character lists). -/
def pyEndsWith (s p : String) : Bool :=
  p.data.isSuffixOf s.data

/-- The number of maximal nonblank runs; `inWord` says whether the previous
character was nonblank. -/
def countWords : List Char → Bool → Nat
  | [], _ => 0
  | c :: cs, inWord =>
    if c.isWhitespace then countWords cs false
    else (if inWord then 0 else 1) + countWords cs true

/-- Python `len(s.split())`: the number of whitespace-separated words. -/
def pyWordCount (s : String) : Nat :=
  countWords s.data false

/-! ## Business report tool executor (business_report_tool_executor.py) -/

/-- Outcome of a `csv_analyzer_agent.run` call (an external collaborator):
either an exception or a result dict. -/
inductive CsvRes
  | raises (msg : String)
  | ok (success : Bool) (error : Option String) (summary : Option String)
      (image_paths : List String)

/-- Outcome of reading the processed source file of a given source id:
absent, present with content, or an OS error. -/
inductive SourceRead
  | missing
  | content (s : String)
  | raises (msg : String)

/-- The business-report job record, as far as `_execute_write_report` reads it. -/
structure BRJob where
  title : Option String := none

/-- Oracles for the external collaborators of the business-report executor.
`writeRaises = some m` means the markdown file write raises an exception
with message `m`. -/
structure BREnv where
  csvAnalyzer : String → String → String → CsvRes
  readSource : String → SourceRead
  writeRaises : Option String := none
  getJob : String → String → BRJob

/-- The execution context dict built by the agent loop. -/
structure BRContext where
  project_id : String
  job_id : String
  source_id : String
  collected_charts : List ChartInfo
  collected_analyses : List AnalysisInfo
  iterations : Nat
  input_tokens : Nat
  output_tokens : Nat
  report_type : String
deriving DecidableEq

/-- A result dict of the business-report executor or agent loop (union of
the keys of the dict literals in the source; a missing key is none). -/
structure BRResult where
  success : Bool
  message : Option String := none
  error : Option String := none
  error_message : Option String := none
  job_id : Option String := none
  title : Option String := none
  markdown_file : Option String := none
  markdown_url : Option String := none
  preview_url : Option String := none
  charts : Option (List ChartInfo) := none
  analyses_count : Option Nat := none
  word_count : Option Nat := none
  report_type : Option String := none
  iterations : Option Nat := none
  usage : Option (Nat × Nat) := none
deriving DecidableEq

namespace BusinessReportToolExecutor

def TERMINATION_TOOL : String := "write_business_report"

/-- `_execute_plan_report`: returns the message and the recorded effects. -/
def execute_plan_report (project_id job_id : String) (tool_input : ToolInput) :
    String × List Effect :=
  let title := tool_input.title.getD "Business Report"
  let numSections := (tool_input.sections.getD []).length
  ("Report plan saved. Title: \u0027" ++ title ++ "\u0027, Sections: " ++
     toString numSections ++ ". Proceed to analyze data and write the report.",
   [.updateJob .businessReport project_id job_id
      { status_message := some "Report planned, analyzing data...",
        payload := ["title", "sections"] }])

/-- `_execute_analyze_csv`: returns the message, the (in-place mutated)
chart and analysis lists, and the recorded effects. -/
def execute_analyze_csv (env : BREnv) (project_id job_id : String)
    (tool_input : ToolInput) (collected_charts : List ChartInfo)
    (collected_analyses : List AnalysisInfo) :
    String × List ChartInfo × List AnalysisInfo × List Effect :=
  let csvId := tool_input.csv_source_id.getD ""
  let analysisQuery := tool_input.analysis_query.getD ""
  let sectionContext := tool_input.section_context.getD ""
  let e0 : Effect := .updateJob .businessReport project_id job_id
    { status_message := some ("Analyzing data for " ++
        (if sectionContext = "" then "report" else sectionContext) ++ "...") }
  match env.csvAnalyzer project_id csvId analysisQuery with
  | .raises m =>
    ("Error during CSV analysis: " ++ m, collected_charts, collected_analyses, [e0])
  | .ok success err summ paths =>
    if !success then
      ("Error analyzing data: " ++ err.getD "Analysis failed",
       collected_charts, collected_analyses, [e0])
    else
      let summary := summ.getD "No summary available"
      let info : AnalysisInfo :=
        { query := analysisQuery, summary := summary, chart_paths := paths,
          section_context := sectionContext }
      let analyses2 := collected_analyses ++ [info]
      let charts2 := collected_charts ++ paths.map (fun p =>
        { filename := p
          title := if sectionContext = "" then "Data Chart"
                   else "Chart for " ++ sectionContext
          sect := sectionContext
          url := "/api/v1/projects/" ++ project_id ++ "/ai-images/" ++ p })
      let e1 : Effect := .updateJob .businessReport project_id job_id
        { payload := ["analyses", "charts"] }
      let parts := ["Analysis complete for: " ++
          (if sectionContext = "" then "data analysis" else sectionContext),
        "\nSummary: " ++ summary] ++
        (if paths ≠ [] then
          ["\nGenerated " ++ toString paths.length ++ " chart(s):"] ++
            paths.map (fun p => "  - " ++ p) ++
            ["\nUse these exact filenames in your markdown: ![Description](filename.png)"]
         else [])
      (String.intercalate "\n" parts, charts2, analyses2, [e0, e1])

/-- `_execute_search_content`: returns the message and the recorded effects
(this handler performs no job update and no write). -/
def execute_search_content (env : BREnv) (project_id job_id : String)
    (tool_input : ToolInput) : String × List Effect :=
  let sourceId := tool_input.source_id.getD ""
  let sectionContext := tool_input.section_context.getD ""
  match env.readSource sourceId with
  | .missing => ("Source content not found for " ++ sourceId, [])
  | .raises m => ("Error searching source content: " ++ m, [])
  | .content c =>
    let c2 := if c.length > 3000 then
        c.take 3000 ++ "\n\n[Content truncated for context...]"
      else c
    ("Content from source (for " ++
       (if sectionContext = "" then "context" else sectionContext) ++ "):\n\n" ++ c2,
     [])

/-- `_execute_write_report` (the termination handler): returns the result
dict and the recorded effects. -/
def execute_write_report (env : BREnv) (project_id job_id : String)
    (tool_input : ToolInput) (context : BRContext) : BRResult × List Effect :=
  let markdownContent := tool_input.markdown_content.getD ""
  let wordCount := pyWordCount markdownContent
  let finalMarkdown := context.collected_charts.foldl
    (fun m c => pyReplace m ("(" ++ c.filename ++ ")") ("(" ++ c.url ++ ")"))
    markdownContent
  let markdownFilename := job_id ++ ".md"
  match env.writeRaises with
  | some m =>
    let errMsg := "Error saving business report: " ++ m
    ({ success := false, error_message := some errMsg,
       iterations := some context.iterations,
       usage := some (context.input_tokens, context.output_tokens) },
     [.updateJob .businessReport project_id job_id
        { status := some "error", error_message := some errMsg }])
  | none =>
    let job := env.getJob project_id job_id
    let title := job.title.getD "Business Report"
    ({ success := true
       job_id := some job_id
       title := some title
       markdown_file := some markdownFilename
       markdown_url := some ("/api/v1/projects/" ++ project_id ++
         "/studio/business-reports/" ++ markdownFilename)
       preview_url := some ("/api/v1/projects/" ++ project_id ++
         "/studio/business-reports/" ++ job_id ++ "/preview")
       charts := some context.collected_charts
       analyses_count := some context.collected_analyses.length
       word_count := some wordCount
       report_type := some context.report_type
       iterations := some context.iterations
       usage := some (context.input_tokens, context.output_tokens) },
     [.writeFile markdownFilename finalMarkdown,
      .updateJob .businessReport project_id job_id
        { status := some "ready",
          status_message := some "Business report generated successfully!",
          markdown_file := some markdownFilename,
          payload := ["markdown_url", "preview_url", "word_count", "iterations",
                      "input_tokens", "output_tokens", "completed_at"] }])

end BusinessReportToolExecutor

/-- The value of a business-report `execute_tool` call: the result dict, the
termination flag, the chart/analysis lists after in-place mutation, and the
recorded effects. -/
structure BRExec where
  result : BRResult
  isTerm : Bool
  charts : List ChartInfo
  analyses : List AnalysisInfo
  effects : List Effect
deriving DecidableEq

namespace BusinessReportToolExecutor

/-- `BusinessReportToolExecutor.execute_tool`. -/
def execute_tool (env : BREnv) (tool_name : String) (tool_input : ToolInput)
    (context : BRContext) : BRExec :=
  let pid := context.project_id
  let jid := context.job_id
  if tool_name = "plan_business_report" then
    let r := execute_plan_report pid jid tool_input
    { result := { success := true, message := some r.1 }, isTerm := false,
      charts := context.collected_charts, analyses := context.collected_analyses,
      effects := r.2 }
  else if tool_name = "analyze_csv_data" then
    let r := execute_analyze_csv env pid jid tool_input
      context.collected_charts context.collected_analyses
    { result := { success := true, message := some r.1 }, isTerm := false,
      charts := r.2.1, analyses := r.2.2.1, effects := r.2.2.2 }
  else if tool_name = "search_source_content" then
    let r := execute_search_content env pid jid tool_input
    { result := { success := true, message := some r.1 }, isTerm := false,
      charts := context.collected_charts, analyses := context.collected_analyses,
      effects := r.2 }
  else if tool_name = "write_business_report" then
    let r := execute_write_report env pid jid tool_input context
    { result := r.1, isTerm := true,
      charts := context.collected_charts, analyses := context.collected_analyses,
      effects := r.2 }
  else
    { result := { success := false, error := some ("Unknown tool: " ++ tool_name) },
      isTerm := false,
      charts := context.collected_charts, analyses := context.collected_analyses,
      effects := [] }

end BusinessReportToolExecutor

/-! ## Email tool executor (email_tool_executor.py) -/

/-- Outcome of an `imagen_service.generate_images` call: an exception, or a
result dict with a success flag, the generated image filenames, and an
optional error message. -/
inductive ImgRes
  | raises (msg : String)
  | ok (success : Bool) (images : List String) (error : Option String)

/-- The email job record, as far as `_handle_write_code` reads it
(`get_email_job` may return None). -/
structure EmailJob where
  template_name : Option String := none

/-- Oracles for the external collaborators of the email executor.
`imagen` takes the image prompt; `writeRaises = some m` means the HTML
file write raises an exception with message `m`. -/
structure EmailEnv where
  imagen : String → ImgRes
  writeRaises : Option String := none
  getJob : String → String → Option EmailJob

/-- The execution context dict handed to the email executor (keys read via
`context.get` with defaults are modelled as plain fields). -/
structure EmailContext where
  project_id : String
  job_id : String
  generated_images : List ImageInfo
  iterations : Nat
  input_tokens : Nat
  output_tokens : Nat
deriving DecidableEq

/-- A result dict of the email executor (union of the keys of the dict
literals in the source; a missing key is none). -/
structure EmailResult where
  success : Bool
  message : Option String := none
  image_info : Option ImageInfo := none
  job_id : Option String := none
  template_name : Option String := none
  html_file : Option String := none
  html_url : Option String := none
  preview_url : Option String := none
  images : Option (List ImageInfo) := none
  subject_line : Option String := none
  preheader_text : Option String := none
  error_message : Option String := none
  iterations : Option Nat := none
  usage : Option (Nat × Nat) := none
deriving DecidableEq

/-- The value of an email `execute_tool` call. -/
structure EmailExec where
  result : EmailResult
  isTerm : Bool
  effects : List Effect
deriving DecidableEq

namespace EmailToolExecutor

def TERMINATION_TOOL : String := "write_email_code"

/-- `_handle_plan`. -/
def handle_plan (project_id job_id : String) (tool_input : ToolInput) :
    String × List Effect :=
  let templateName := tool_input.template_name.getD "Unnamed"
  let templateType := tool_input.template_type
  let sections := tool_input.sections.getD []
  ("Template plan saved successfully. Template name: \u0027" ++ templateName ++
     "\u0027, Type: " ++ (match templateType with | some t => t | none => "None") ++
     ", Sections: " ++ toString sections.length,
   [.updateJob .email project_id job_id
      { status_message := some "Template planned, generating images...",
        payload := ["template_name", "template_type", "color_scheme",
                    "sections", "layout_notes"] }])

/-- `_handle_generate_image`: returns the message, the optional image-info
dict, and the recorded effects. -/
def handle_generate_image (env : EmailEnv) (project_id job_id : String)
    (tool_input : ToolInput) (generated_images : List ImageInfo) :
    String × Option ImageInfo × List Effect :=
  let sectionName := tool_input.section_name.getD "unknown"
  let imagePrompt := tool_input.image_prompt.getD ""
  let e0 : Effect := .updateJob .email project_id job_id
    { status_message := some ("Generating image for " ++ sectionName ++ "...") }
  match env.imagen imagePrompt with
  | .raises m =>
    ("Error generating image for " ++ sectionName ++ ": " ++ m, none, [e0])
  | .ok success images err =>
    match success, images with
    | true, filename :: _ =>
      let imageIndex := generated_images.length + 1
      let imageInfo : ImageInfo :=
        { section_name := sectionName
          filename := filename
          placeholder := "IMAGE_" ++ toString imageIndex
          url := "/api/v1/projects/" ++ project_id ++
            "/studio/email-templates/" ++ filename }
      ("Image generated successfully for \u0027" ++ sectionName ++
         "\u0027. Use placeholder \u0027" ++ imageInfo.placeholder ++
         "\u0027 in your HTML code for this image.",
       some imageInfo,
       [e0, .updateJob .email project_id job_id { payload := ["images"] }])
    | _, _ =>
      ("Error generating image for " ++ sectionName ++ ": " ++
         err.getD "Unknown error", none, [e0])

/-- `_handle_write_code` (the termination handler). -/
def handle_write_code (env : EmailEnv) (project_id job_id : String)
    (tool_input : ToolInput) (generated_images : List ImageInfo)
    (iterations input_tokens output_tokens : Nat) : EmailResult × List Effect :=
  let htmlCode := tool_input.html_code.getD ""
  let subjectLine := tool_input.subject_line_suggestion.getD ""
  let preheaderText := tool_input.preheader_text.getD ""
  let finalHtml := generated_images.foldl
    (fun h img =>
      pyReplace
        (pyReplace h ("\"" ++ img.placeholder ++ "\"") ("\"" ++ img.url ++ "\""))
        ("\u0027" ++ img.placeholder ++ "\u0027")
        ("\u0027" ++ img.url ++ "\u0027"))
    htmlCode
  match env.writeRaises with
  | some m =>
    let errMsg := "Error saving HTML code: " ++ m
    ({ success := false, error_message := some errMsg,
       iterations := some iterations,
       usage := some (input_tokens, output_tokens) },
     [.updateJob .email project_id job_id
        { status := some "error", error_message := some errMsg }])
  | none =>
    let htmlFilename := job_id ++ ".html"
    let templateName := match env.getJob project_id job_id with
      | some j => j.template_name.getD "Email Template"
      | none => "Email Template"
    ({ success := true
       job_id := some job_id
       template_name := some templateName
       html_file := some htmlFilename
       html_url := some ("/api/v1/projects/" ++ project_id ++
         "/studio/email-templates/" ++ htmlFilename)
       preview_url := some ("/api/v1/projects/" ++ project_id ++
         "/studio/email-templates/" ++ job_id ++ "/preview")
       images := some generated_images
       subject_line := some subjectLine
       preheader_text := some preheaderText
       iterations := some iterations
       usage := some (input_tokens, output_tokens) },
     [.writeFile htmlFilename finalHtml,
      .updateJob .email project_id job_id
        { status := some "ready",
          status_message := some "Email template generated successfully!",
          payload := ["html_file", "html_url", "preview_url", "subject_line",
                      "preheader_text", "iterations", "input_tokens",
                      "output_tokens", "completed_at"] }])

/-- `EmailToolExecutor.execute_tool`. -/
def execute_tool (env : EmailEnv) (tool_name : String) (tool_input : ToolInput)
    (context : EmailContext) : EmailExec :=
  let pid := context.project_id
  let jid := context.job_id
  if tool_name = "plan_email_template" then
    let r := handle_plan pid jid tool_input
    { result := { success := true, message := some r.1 }, isTerm := false,
      effects := r.2 }
  else if tool_name = "generate_email_image" then
    let r := handle_generate_image env pid jid tool_input context.generated_images
    { result := { success := true, message := some r.1, image_info := r.2.1 },
      isTerm := false, effects := r.2.2 }
  else if tool_name = "write_email_code" then
    let r := handle_write_code env pid jid tool_input context.generated_images
      context.iterations context.input_tokens context.output_tokens
    { result := r.1, isTerm := true, effects := r.2 }
  else
    { result := { success := false, message := some ("Unknown tool: " ++ tool_name) },
      isTerm := false, effects := [] }

end EmailToolExecutor

/-! ## Presentation tool executor (presentation_tool_executor.py) -/

/-- The presentation job record, as far as `_handle_finalize` reads it
(`get_presentation_job` may return None). -/
structure PresJob where
  presentation_title : Option String := none

/-- Oracles for the external collaborators of the presentation executor.
`writeRaises` models an exception in the slide/CSS file writes,
`finalizeRaises` an exception inside the try block of `_handle_finalize`. -/
structure PresEnv where
  writeRaises : Option String := none
  finalizeRaises : Option String := none
  getJob : String → String → Option PresJob

/-- The execution context dict handed to the presentation executor. -/
structure PresContext where
  project_id : String
  job_id : String
  source_id : String
  created_files : List String
  slides_info : List SlideInfo
  iterations : Nat
  input_tokens : Nat
  output_tokens : Nat
deriving DecidableEq

/-- A result dict of the presentation executor (union of the keys of the
dict literals in the source; a missing key is none). -/
structure PresResult where
  success : Bool
  message : Option String := none
  created_files : Option (List String) := none
  slides_info : Option (List SlideInfo) := none
  job_id : Option String := none
  presentation_title : Option String := none
  total_slides : Option Nat := none
  slide_files : Option (List String) := none
  files : Option (List String) := none
  summary : Option String := none
  preview_url : Option String := none
  download_url : Option String := none
  error_message : Option String := none
  iterations : Option Nat := none
  usage : Option (Nat × Nat) := none
deriving DecidableEq

/-- The value of a presentation `execute_tool` call. -/
structure PresExec where
  result : PresResult
  isTerm : Bool
  effects : List Effect
deriving DecidableEq

namespace PresentationToolExecutor

def TERMINATION_TOOL : String := "finalize_presentation"

/-- The Python format `f"slide_{n:02d}"` for a natural slide number. -/
def pad2 (n : Nat) : String :=
  if n < 10 then "0" ++ toString n else toString n

/-- `_handle_plan`. -/
def handle_plan (project_id job_id : String) (tool_input : ToolInput) :
    String × List Effect :=
  let title := tool_input.presentation_title.getD "Untitled Presentation"
  let slides := tool_input.slides.getD []
  let presentationType := tool_input.presentation_type.getD "business"
  ("Presentation plan saved successfully. Title: \u0027" ++ title ++
     "\u0027, Type: " ++ presentationType ++ ", Slides: " ++ toString slides.length ++
     ". Now create base-styles.css with the design system colors.",
   [.updateJob .presentation project_id job_id
      { status_message := some ("Planned " ++ toString slides.length ++
          "-slide presentation, creating base styles..."),
        payload := ["presentation_title", "presentation_type", "target_audience",
                    "planned_slides", "design_system", "style_notes"] }])

/-- `_handle_create_base_styles`: returns the message, the updated
created-files list, and the recorded effects. -/
def handle_create_base_styles (env : PresEnv) (project_id job_id : String)
    (tool_input : ToolInput) (created_files : List String) :
    String × List String × List Effect :=
  let content := tool_input.content.getD ""
  match env.writeRaises with
  | some m =>
    ("Error creating base-styles.css: " ++ m, created_files, [])
  | none =>
    let updatedFiles :=
      if "base-styles.css" ∈ created_files then created_files
      else created_files ++ ["base-styles.css"]
    ("base-styles.css created successfully (" ++ toString content.length ++
       " characters). Now create slides starting with slide_01.html.",
     updatedFiles,
     [.writeFile "base-styles.css" content,
      .updateJob .presentation project_id job_id
        { status_message := some "Base styles created, generating slides...",
          payload := ["files"] }])

/-- `_handle_create_slide`: returns the message, the updated created-files
list, the updated slides-info list, and the recorded effects. -/
def handle_create_slide (env : PresEnv) (project_id job_id : String)
    (tool_input : ToolInput) (created_files : List String)
    (slides_info : List SlideInfo) :
    String × List String × List SlideInfo × List Effect :=
  let slideNumber := tool_input.slide_number.getD 1
  let slideType := tool_input.slide_type.getD "bullet_points"
  let content := tool_input.content.getD ""
  let filename := "slide_" ++ pad2 slideNumber ++ ".html"
  match env.writeRaises with
  | some m =>
    ("Error creating slide " ++ toString slideNumber ++ ": " ++ m,
     created_files, slides_info, [])
  | none =>
    let updatedFiles :=
      if filename ∈ created_files then created_files
      else created_files ++ [filename]
    let updatedSlides := slides_info ++
      [{ filename := filename, slide_number := slideNumber, slide_type := slideType }]
    let slideCount := (updatedFiles.filter (fun f => pyStartsWith f "slide_")).length
    ("Slide " ++ toString slideNumber ++ " (" ++ filename ++
       ") created successfully. Type: " ++ slideType ++ ", Size: " ++
       toString content.length ++ " characters.",
     updatedFiles, updatedSlides,
     [.writeFile filename content,
      .updateJob .presentation project_id job_id
        { status_message := some ("Created " ++ filename ++ " (" ++
            toString slideCount ++ " slides so far)"),
          payload := ["files", "slides_created"] }])

/-- `_handle_finalize` (the termination handler). -/
def handle_finalize (env : PresEnv) (project_id job_id source_id : String)
    (tool_input : ToolInput) (created_files : List String)
    (slides_info : List SlideInfo)
    (iterations input_tokens output_tokens : Nat) : PresResult × List Effect :=
  let summary := tool_input.summary.getD ""
  let designNotes := tool_input.design_notes.getD ""
  match env.finalizeRaises with
  | some m =>
    let errMsg := "Error finalizing presentation: " ++ m
    ({ success := false, error_message := some errMsg,
       iterations := some iterations,
       usage := some (input_tokens, output_tokens) },
     [.updateJob .presentation project_id job_id
        { status := some "error", error_message := some errMsg }])
  | none =>
    let title := match env.getJob project_id job_id with
      | some j => j.presentation_title.getD "Presentation"
      | none => "Presentation"
    let slideFiles := List.insertionSort (· ≤ ·)
      (created_files.filter (fun f => pyStartsWith f "slide_" && pyEndsWith f ".html"))
    ({ success := true
       job_id := some job_id
       presentation_title := some title
       total_slides := some slideFiles.length
       slide_files := some slideFiles
       files := some created_files
       summary := some summary
       preview_url := some ("/api/v1/projects/" ++ project_id ++
         "/studio/presentations/" ++ job_id ++ "/preview")
       download_url := some ("/api/v1/projects/" ++ project_id ++
         "/studio/presentations/" ++ job_id ++ "/download")
       iterations := some iterations
       usage := some (input_tokens, output_tokens) },
     [.updateJob .presentation project_id job_id
        { status := some "ready",
          status_message := some "Presentation generated! Ready for export.",
          payload := ["files", "slide_files", "slides_metadata", "summary",
                      "design_notes", "total_slides", "preview_url",
                      "download_url", "iterations", "input_tokens",
                      "output_tokens", "completed_at"] }])

/-- `PresentationToolExecutor.execute_tool`. -/
def execute_tool (env : PresEnv) (tool_name : String) (tool_input : ToolInput)
    (context : PresContext) : PresExec :=
  let pid := context.project_id
  let jid := context.job_id
  let createdFiles := context.created_files
  let slidesInfo := context.slides_info
  if tool_name = "plan_presentation" then
    let r := handle_plan pid jid tool_input
    let res : PresResult :=
      { success := true, message := some r.1,
        created_files := some createdFiles, slides_info := some slidesInfo }
    { result := res, isTerm := false, effects := r.2 }
  else if tool_name = "create_base_styles" then
    let r := handle_create_base_styles env pid jid tool_input createdFiles
    let res : PresResult :=
      { success := true, message := some r.1,
        created_files := some r.2.1, slides_info := some slidesInfo }
    { result := res, isTerm := false, effects := r.2.2 }
  else if tool_name = "create_slide" then
    let r := handle_create_slide env pid jid tool_input createdFiles slidesInfo
    let res : PresResult :=
      { success := true, message := some r.1,
        created_files := some r.2.1, slides_info := some r.2.2.1 }
    { result := res, isTerm := false, effects := r.2.2.2 }
  else if tool_name = "finalize_presentation" then
    let r := handle_finalize env pid jid context.source_id tool_input
      createdFiles slidesInfo context.iterations context.input_tokens
      context.output_tokens
    { result := r.1, isTerm := true, effects := r.2 }
  else
    let res : PresResult :=
      { success := false,
        message := some ("Unknown tool: " ++ tool_name),
        created_files := some createdFiles, slides_info := some slidesInfo }
    { result := res, isTerm := false, effects := [] }

end PresentationToolExecutor

/-! ## Business report agent service (business_report_agent_service.py)

The remote model is an oracle: `responses i` is the response the
`claude_service.send_message` call of iteration `i` (1-based) returns.
Message-list assembly (serialization of content blocks and tool-result
strings) is pass-through formatting with no effect on control flow and is
not modelled; the in-place mutation of `collected_charts` /
`collected_analyses` by the executor is modelled by threading the lists
returned in `BRExec`.
-/

/-- A content block of a model response. -/
inductive ContentBlock
  | tool_use (name : String) (input : ToolInput) (id : String)
  | text (s : String)
deriving DecidableEq

/-- A model response: token usage and content blocks. -/
structure ModelResponse where
  input_tokens : Nat
  output_tokens : Nat
  content_blocks : List ContentBlock
deriving DecidableEq

/-- A record of one `execute_tool` dispatch performed by the loop. -/
structure Dispatch where
  iteration : Nat
  name : String
  id : String
  input : ToolInput
  ctx : BRContext
  result : BRResult
  isTerm : Bool
deriving DecidableEq

/-- The outcome of processing the content blocks of one iteration. -/
structure BlocksOut where
  term : Option BRResult
  charts : List ChartInfo
  analyses : List AnalysisInfo
  dispatched : List Dispatch
  effects : List Effect
deriving DecidableEq

/-- The outcome of a `generate_business_report` run: the returned result
dict, whether a termination tool fired, the number of model requests sent,
the dispatched tool calls, and the recorded effects. -/
structure LoopOut where
  result : BRResult
  terminated : Bool
  sends : Nat
  dispatched : List Dispatch
  effects : List Effect
deriving DecidableEq

namespace BusinessReportAgentService

def MAX_ITERATIONS : Nat := 10

/-- The error message of the iteration-budget path. -/
def maxIterMessage : String :=
  "Agent reached maximum iterations (" ++ toString MAX_ITERATIONS ++ ")"

/-- The error result dict built when the budget is exhausted. -/
def errorResult (total_input_tokens total_output_tokens : Nat) : BRResult :=
  { success := false
    error_message := some maxIterMessage
    iterations := some MAX_ITERATIONS
    usage := some (total_input_tokens, total_output_tokens) }

/-- The job update of the iteration-budget path. -/
def errorUpdate (project_id job_id : String) : Effect :=
  .updateJob .businessReport project_id job_id
    { status := some "error", error_message := some maxIterMessage }

/-- The `for block in content_blocks` body: dispatch each tool_use block,
stopping at the first termination.  `tin`/`tout` are the token totals after
the current response was added; charts/analyses thread the in-place
mutation from block to block. -/
def processBlocks (env : BREnv) (project_id job_id source_id report_type : String)
    (iteration tin tout : Nat) :
    List ContentBlock → List ChartInfo → List AnalysisInfo → BlocksOut
  | [], charts, analyses =>
    { term := none, charts := charts, analyses := analyses,
      dispatched := [], effects := [] }
  | .text _ :: bs, charts, analyses =>
    processBlocks env project_id job_id source_id report_type
      iteration tin tout bs charts analyses
  | .tool_use name input bid :: bs, charts, analyses =>
    let ctx : BRContext :=
      { project_id := project_id, job_id := job_id, source_id := source_id,
        collected_charts := charts, collected_analyses := analyses,
        iterations := iteration, input_tokens := tin, output_tokens := tout,
        report_type := report_type }
    let ex := BusinessReportToolExecutor.execute_tool env name input ctx
    let d : Dispatch :=
      { iteration := iteration, name := name, id := bid, input := input,
        ctx := ctx, result := ex.result, isTerm := ex.isTerm }
    if ex.isTerm then
      { term := some ex.result, charts := ex.charts, analyses := ex.analyses,
        dispatched := [d], effects := ex.effects }
    else
      let rest := processBlocks env project_id job_id source_id report_type
        iteration tin tout bs ex.charts ex.analyses
      { term := rest.term, charts := rest.charts, analyses := rest.analyses,
        dispatched := d :: rest.dispatched, effects := ex.effects ++ rest.effects }

/-- The `for iteration in range(1, MAX_ITERATIONS + 1)` loop.  `fuel` is the
number of iterations still allowed, `iteration` the 1-based number of the
next one; `tin`/`tout` accumulate token usage. -/
def runLoop (responses : Nat → ModelResponse) (env : BREnv)
    (project_id job_id source_id report_type : String) :
    Nat → Nat → Nat → Nat → List ChartInfo → List AnalysisInfo → LoopOut
  | 0, _, tin, tout, _, _ =>
    { result := errorResult tin tout
      terminated := false
      sends := 0
      dispatched := []
      effects := [errorUpdate project_id job_id,
                  .saveExecution project_id job_id] }
  | fuel + 1, iteration, tin, tout, charts, analyses =>
    let resp := responses iteration
    let tin2 := tin + resp.input_tokens
    let tout2 := tout + resp.output_tokens
    let bo := processBlocks env project_id job_id source_id report_type
      iteration tin2 tout2 resp.content_blocks charts analyses
    match bo.term with
    | some r =>
      { result := r
        terminated := true
        sends := 1
        dispatched := bo.dispatched
        effects := bo.effects ++ [.saveExecution project_id job_id] }
    | none =>
      let rest := runLoop responses env project_id job_id source_id report_type
        fuel (iteration + 1) tin2 tout2 bo.charts bo.analyses
      { result := rest.result
        terminated := rest.terminated
        sends := rest.sends + 1
        dispatched := bo.dispatched ++ rest.dispatched
        effects := bo.effects ++ rest.effects }

/-- `generate_business_report`: the initial job update followed by the loop. -/
def generate_business_report (responses : Nat → ModelResponse) (env : BREnv)
    (project_id source_id job_id report_type : String) : LoopOut :=
  let initialUpdate : Effect := .updateJob .businessReport project_id job_id
    { status := some "processing",
      status_message := some "Starting business report generation...",
      payload := ["started_at"] }
  let out := runLoop responses env project_id job_id source_id report_type
    MAX_ITERATIONS 1 0 0 [] []
  { out with effects := initialUpdate :: out.effects }

/-- The sum `f lo + f (lo+1) + ... + f (lo+n-1)` (used for token totals of
a range of iterations). -/
def sumFrom (f : Nat → Nat) : Nat → Nat → Nat
  | _, 0 => 0
  | lo, n + 1 => f lo + sumFrom f (lo + 1) n

end BusinessReportAgentService

/-! ## Concrete inputs used by the witnesses below -/

/-- Concrete uuid oracle for witnesses. -/
def idsW : Nat → String := fun n => "id" ++ toString n

/-- Concrete hash oracle for witnesses. -/
def hashW : String → Nat := fun _ => 7

/-- Concrete presentation environment for the C8 witness. -/
def penv8 : PresEnv :=
  { writeRaises := none, finalizeRaises := none, getJob := fun _ _ => none }

/-- Concrete presentation context for the C8 witness. -/
def pctx8 : PresContext :=
  { project_id := "p", job_id := "j", source_id := "s",
    created_files := ["slide_02.html", "base-styles.css", "slide_01.html"],
    slides_info := [], iterations := 3, input_tokens := 10, output_tokens := 20 }

/-- A model-response oracle whose first response calls the termination tool. -/
def termResponses : Nat → ModelResponse := fun i =>
  if i = 1 then
    { input_tokens := 5, output_tokens := 7,
      content_blocks := [.tool_use "write_business_report"
        { markdown_content := some "hello" } "t1"] }
  else { input_tokens := 0, output_tokens := 0, content_blocks := [] }

/-- A model-response oracle that never requests a tool call. -/
def quietResponses : Nat → ModelResponse := fun i =>
  { input_tokens := i, output_tokens := 2 * i, content_blocks := [] }

/-- A benign business-report environment for witnesses. -/
def baseEnv : BREnv :=
  { csvAnalyzer := fun _ _ _ => .ok true none none [],
    readSource := fun _ => .missing, writeRaises := none,
    getJob := fun _ _ => {} }

/-- The context of the dispatch of the run driven by `termResponses`. -/
def c4Ctx : BRContext :=
  { project_id := "p", job_id := "j", source_id := "s",
    collected_charts := [], collected_analyses := [], iterations := 1,
    input_tokens := 5, output_tokens := 7, report_type := "rt" }

/-- The result dict of the dispatch of the run driven by `termResponses`. -/
def c4Result : BRResult :=
  { success := true, job_id := some "j",
    title := some "Business Report", markdown_file := some "j.md",
    markdown_url := some "/api/v1/projects/p/studio/business-reports/j.md",
    preview_url := some "/api/v1/projects/p/studio/business-reports/j/preview",
    charts := some [], analyses_count := some 0, word_count := some 1,
    report_type := some "rt", iterations := some 1, usage := some (5, 7) }

/-- The single dispatch of the run driven by `termResponses`. -/
def c4Dispatch : Dispatch :=
  { iteration := 1, name := "write_business_report", id := "t1",
    input := { markdown_content := some "hello" },
    ctx := c4Ctx, result := c4Result, isTerm := true }

/-- A benign email environment for witnesses. -/
def emailEnvW : EmailEnv :=
  { imagen := fun _ => .ok true [] none, writeRaises := none,
    getJob := fun _ _ => none }

/-- A business-report context for witnesses. -/
def brCtxW : BRContext :=
  { project_id := "p", job_id := "j", source_id := "s",
    collected_charts := [], collected_analyses := [], iterations := 1,
    input_tokens := 0, output_tokens := 0, report_type := "rt" }

/-- An email context for witnesses. -/
def emailCtxW : EmailContext :=
  { project_id := "p", job_id := "j", generated_images := [],
    iterations := 1, input_tokens := 0, output_tokens := 0 }

/-- A presentation context for witnesses. -/
def presCtxW : PresContext :=
  { project_id := "p", job_id := "j", source_id := "s",
    created_files := [], slides_info := [], iterations := 1,
    input_tokens := 0, output_tokens := 0 }

/-! ## Theorems -/

/-- Each input element contributes its base element plus one label element
when `hasShapeLabel` holds. -/
theorem convertGo_length (ids : Nat → String) (hashF : String → Nat) :
    ∀ (es : List SimpleElem) (ctr : Nat),
      (convertGo ids hashF ctr es).length = es.length + es.countP hasShapeLabel
  | [], _ => rfl
  | e :: es, ctr => by
    by_cases h : hasShapeLabel e <;>
      simp [convertGo, h, convertGo_length ids hashF es, List.countP_cons] <;>
      omega

/-- Claim C7: `convert_to_excalidraw_elements` emits one converted element
per input element (with defaults type "rectangle", x 0, y 0, strokeColor
"#000000", strokeWidth 1, and constants opacity 100, roughness 1,
isDeleted false, locked false), followed immediately by one text label
element exactly for labelled rectangle/ellipse/diamond elements, so the
output length is the input length plus the number of such elements. -/
theorem c7_convert_to_excalidraw (ids : Nat → String) (hashF : String → Nat)
    (elements : List SimpleElem) :
    (convert_to_excalidraw_elements ids hashF elements).length
      = elements.length + elements.countP hasShapeLabel
  ∧ (∀ ctr e es, convertGo ids hashF ctr (e :: es)
      = mkBaseElem (ids ctr) hashF e ::
          ((if hasShapeLabel e then
              [build_label_element (ids (ctr + 1)) hashF e (e.label.getD "")]
            else []) ++
            convertGo ids hashF (ctr + if hasShapeLabel e then 2 else 1) es))
  ∧ (∀ elemId e,
        (mkBaseElem elemId hashF e).opacity = 100
      ∧ (mkBaseElem elemId hashF e).roughness = 1
      ∧ (mkBaseElem elemId hashF e).isDeleted = false
      ∧ (mkBaseElem elemId hashF e).locked = false
      ∧ (e.type = none → (mkBaseElem elemId hashF e).type = "rectangle")
      ∧ (e.x = none → (mkBaseElem elemId hashF e).x = 0)
      ∧ (e.y = none → (mkBaseElem elemId hashF e).y = 0)
      ∧ (e.strokeColor = none → (mkBaseElem elemId hashF e).strokeColor = "#000000")
      ∧ (e.strokeWidth = none → (mkBaseElem elemId hashF e).strokeWidth = 1))
  ∧ (∀ labelId e label,
        (build_label_element labelId hashF e label).type = "text"
      ∧ (build_label_element labelId hashF e label).text = some label) := by
  refine ⟨convertGo_length ids hashF elements 0, ?_, ?_, ?_⟩
  · intro ctr e es
    by_cases h : hasShapeLabel e <;> simp [convertGo, h]
  · intro elemId e
    refine ⟨?_, ?_, ?_, ?_, ?_, ?_, ?_, ?_, ?_⟩ <;>
      first
      | (simp only [mkBaseElem, build_text_properties, build_line_properties];
         split <;> (try split) <;> rfl)
      | (intro h;
         simp only [mkBaseElem, build_text_properties, build_line_properties];
         split <;> (try split) <;> simp [h])
  · intro labelId e label
    exact ⟨rfl, rfl⟩

/-- Witness for C7 at a concrete input: a labelled ellipse plus a bare
element give three output elements, and the bare element gets the
documented defaults. -/
theorem c7_witness :
    (convert_to_excalidraw_elements idsW hashW
        [{ type := some "ellipse", label := some "Hi" }, {}]).length = 3
  ∧ (mkBaseElem "id0" hashW ({} : SimpleElem)).type = "rectangle"
  ∧ (mkBaseElem "id0" hashW ({} : SimpleElem)).x = 0
  ∧ (mkBaseElem "id0" hashW ({} : SimpleElem)).strokeColor = "#000000"
  ∧ (build_label_element "id1" hashW { type := some "ellipse", label := some "Hi" } "Hi").type
      = "text" := by
  have h := c7_convert_to_excalidraw idsW hashW
    [{ type := some "ellipse", label := some "Hi" }, {}]
  refine ⟨h.1.trans (by decide), ?_, ?_, ?_, ?_⟩
  · exact ((h.2.2.1 "id0" {}).2.2.2.2.1 rfl)
  · exact ((h.2.2.1 "id0" {}).2.2.2.2.2.1 rfl)
  · exact ((h.2.2.1 "id0" {}).2.2.2.2.2.2.2.1 rfl)
  · exact (h.2.2.2 "id1" { type := some "ellipse", label := some "Hi" } "Hi").1

/-- Claim C2: for each of the three executors, `execute_tool` reports a
termination signal exactly when the tool name equals that executor's
`TERMINATION_TOOL`, whatever the input, context and environment. -/
theorem c2_termination_flag (env : BREnv) (eenv : EmailEnv) (penv : PresEnv)
    (name : String) (input : ToolInput) (ctx : BRContext)
    (ectx : EmailContext) (pctx : PresContext) :
    (BusinessReportToolExecutor.execute_tool env name input ctx).isTerm
      = (name == BusinessReportToolExecutor.TERMINATION_TOOL)
  ∧ (EmailToolExecutor.execute_tool eenv name input ectx).isTerm
      = (name == EmailToolExecutor.TERMINATION_TOOL)
  ∧ (PresentationToolExecutor.execute_tool penv name input pctx).isTerm
      = (name == PresentationToolExecutor.TERMINATION_TOOL) := by
  refine ⟨?_, ?_, ?_⟩
  · simp only [BusinessReportToolExecutor.execute_tool,
      BusinessReportToolExecutor.TERMINATION_TOOL]
    split_ifs with h1 h2 h3 h4 <;> simp_all
  · simp only [EmailToolExecutor.execute_tool, EmailToolExecutor.TERMINATION_TOOL]
    split_ifs with h1 h2 h3 <;> simp_all
  · simp only [PresentationToolExecutor.execute_tool,
      PresentationToolExecutor.TERMINATION_TOOL]
    split_ifs with h1 h2 h3 h4 <;> simp_all

/-- Claim C9: each executor, called with any tool name outside its own
handled set, returns success False with an "Unknown tool" message,
is_termination False, and records no job update and no file write — each
executor independently, whether or not another executor handles the name. -/
theorem c9_unknown_tool (env : BREnv) (eenv : EmailEnv) (penv : PresEnv)
    (name : String) (input : ToolInput) (ctx : BRContext)
    (ectx : EmailContext) (pctx : PresContext) :
    (name ∉ (["plan_business_report", "analyze_csv_data",
        "search_source_content", "write_business_report"] : List String) →
      BusinessReportToolExecutor.execute_tool env name input ctx =
        { result := { success := false, error := some ("Unknown tool: " ++ name) },
          isTerm := false, charts := ctx.collected_charts,
          analyses := ctx.collected_analyses, effects := [] })
  ∧ (name ∉ (["plan_email_template", "generate_email_image",
        "write_email_code"] : List String) →
      EmailToolExecutor.execute_tool eenv name input ectx =
        { result := { success := false, message := some ("Unknown tool: " ++ name) },
          isTerm := false, effects := [] })
  ∧ (name ∉ (["plan_presentation", "create_base_styles", "create_slide",
        "finalize_presentation"] : List String) →
      PresentationToolExecutor.execute_tool penv name input pctx =
        { result := { success := false, message := some ("Unknown tool: " ++ name),
                      created_files := some pctx.created_files,
                      slides_info := some pctx.slides_info },
          isTerm := false, effects := [] }) := by
  refine ⟨?_, ?_, ?_⟩
  · intro h1
    simp only [List.mem_cons, List.not_mem_nil, or_false, not_or] at h1
    simp [BusinessReportToolExecutor.execute_tool, h1.1, h1.2.1, h1.2.2.1, h1.2.2.2]
  · intro h2
    simp only [List.mem_cons, List.not_mem_nil, or_false, not_or] at h2
    simp [EmailToolExecutor.execute_tool, h2.1, h2.2.1, h2.2.2]
  · intro h3
    simp only [List.mem_cons, List.not_mem_nil, or_false, not_or] at h3
    simp [PresentationToolExecutor.execute_tool, h3.1, h3.2.1, h3.2.2.1, h3.2.2.2]

/-- Witness for C9: each executor fed a name handled by one of the other
executors, so only that executor's own hypothesis is discharged. -/
theorem c9_witness :
    BusinessReportToolExecutor.execute_tool baseEnv "create_slide" {} brCtxW =
      { result := { success := false, error := some "Unknown tool: create_slide" },
        isTerm := false, charts := [], analyses := [], effects := [] }
  ∧ EmailToolExecutor.execute_tool emailEnvW "plan_business_report" {} emailCtxW =
      { result := { success := false,
                    message := some "Unknown tool: plan_business_report" },
        isTerm := false, effects := [] }
  ∧ PresentationToolExecutor.execute_tool penv8 "write_email_code" {} presCtxW =
      { result := { success := false,
                    message := some "Unknown tool: write_email_code",
                    created_files := some [], slides_info := some [] },
        isTerm := false, effects := [] } :=
  ⟨(c9_unknown_tool baseEnv emailEnvW penv8 "create_slide" {}
      brCtxW emailCtxW presCtxW).1 (by decide),
   (c9_unknown_tool baseEnv emailEnvW penv8 "plan_business_report" {}
      brCtxW emailCtxW presCtxW).2.1 (by decide),
   (c9_unknown_tool baseEnv emailEnvW penv8 "write_email_code" {}
      brCtxW emailCtxW presCtxW).2.2 (by decide)⟩

/-- Claim C10: `search_source_content` answers with at most the first 3000
characters of the processed file content, appending the truncation notice
exactly when the content is longer than 3000 characters, and answers with
a "Source content not found" message (raising nothing) when the processed
file does not exist. -/
theorem c10_search_source_content (env : BREnv) (project_id job_id : String)
    (input : ToolInput) :
    (env.readSource (input.source_id.getD "") = .missing →
      BusinessReportToolExecutor.execute_search_content env project_id job_id input
        = ("Source content not found for " ++ input.source_id.getD "", []))
  ∧ (∀ s, env.readSource (input.source_id.getD "") = .content s →
      BusinessReportToolExecutor.execute_search_content env project_id job_id input
        = ("Content from source (for " ++
             (if input.section_context.getD "" = "" then "context"
              else input.section_context.getD "") ++ "):\n\n" ++
             (if s.length > 3000 then
                s.take 3000 ++ "\n\n[Content truncated for context...]"
              else s),
           [])) := by
  constructor
  · intro h
    simp [BusinessReportToolExecutor.execute_search_content, h]
  · intro s h
    simp [BusinessReportToolExecutor.execute_search_content, h]

/-- Witness for C10: a missing source and a short existing source. -/
theorem c10_witness :
    BusinessReportToolExecutor.execute_search_content
      { csvAnalyzer := fun _ _ _ => .ok true none none [],
        readSource := fun sid => if sid = "gone" then .missing else .content "hi",
        writeRaises := none, getJob := fun _ _ => {} }
      "p" "j" { source_id := some "gone" }
      = ("Source content not found for gone", [])
  ∧ BusinessReportToolExecutor.execute_search_content
      { csvAnalyzer := fun _ _ _ => .ok true none none [],
        readSource := fun sid => if sid = "gone" then .missing else .content "hi",
        writeRaises := none, getJob := fun _ _ => {} }
      "p" "j" { source_id := some "here" }
      = ("Content from source (for context):\n\nhi", []) := by
  constructor
  · exact (c10_search_source_content _ "p" "j" _).1 rfl
  · have h := (c10_search_source_content
      { csvAnalyzer := fun _ _ _ => .ok true none none [],
        readSource := fun sid => if sid = "gone" then .missing else .content "hi",
        writeRaises := none, getJob := fun _ _ => {} }
      "p" "j" { source_id := some "here" }).2 "hi" rfl
    simpa using h

/-- Claim C5: on a successful `write_business_report` call, the markdown
written to the file is the input content with, per chart in list order,
every parenthesised occurrence "(filename)" replaced by "(url)" (Python
str.replace and String.replace both replace all occurrences), and the
success result carries markdown_file = "<job_id>.md". -/
theorem c5_write_report (env : BREnv) (input : ToolInput) (ctx : BRContext)
    (h : env.writeRaises = none) :
    (BusinessReportToolExecutor.execute_tool env "write_business_report" input ctx).result.success
      = true
  ∧ (BusinessReportToolExecutor.execute_tool env "write_business_report" input ctx).result.markdown_file
      = some (ctx.job_id ++ ".md")
  ∧ Effect.writeFile (ctx.job_id ++ ".md")
      (ctx.collected_charts.foldl
        (fun m c => pyReplace m ("(" ++ c.filename ++ ")") ("(" ++ c.url ++ ")"))
        (input.markdown_content.getD ""))
      ∈ (BusinessReportToolExecutor.execute_tool env "write_business_report" input ctx).effects := by
  refine ⟨?_, ?_, ?_⟩ <;>
    simp [BusinessReportToolExecutor.execute_tool,
      BusinessReportToolExecutor.execute_write_report, h]

/-- Witness for C5: one collected chart, content mentioning its filename. -/
theorem c5_witness :
    (BusinessReportToolExecutor.execute_tool
        { csvAnalyzer := fun _ _ _ => .ok true none none [],
          readSource := fun _ => .missing, writeRaises := none,
          getJob := fun _ _ => {} }
        "write_business_report" { markdown_content := some "see ![c](a.png) here" }
        { project_id := "p", job_id := "job1", source_id := "s",
          collected_charts := [{ filename := "a.png", title := "t", sect := "",
                                 url := "/api/x/a.png" }],
          collected_analyses := [], iterations := 2, input_tokens := 3,
          output_tokens := 4, report_type := "rt" }).result.success = true
  ∧ (BusinessReportToolExecutor.execute_tool
        { csvAnalyzer := fun _ _ _ => .ok true none none [],
          readSource := fun _ => .missing, writeRaises := none,
          getJob := fun _ _ => {} }
        "write_business_report" { markdown_content := some "see ![c](a.png) here" }
        { project_id := "p", job_id := "job1", source_id := "s",
          collected_charts := [{ filename := "a.png", title := "t", sect := "",
                                 url := "/api/x/a.png" }],
          collected_analyses := [], iterations := 2, input_tokens := 3,
          output_tokens := 4, report_type := "rt" }).result.markdown_file
      = some "job1.md"
  ∧ Effect.writeFile "job1.md" "see ![c](/api/x/a.png) here"
      ∈ (BusinessReportToolExecutor.execute_tool
        { csvAnalyzer := fun _ _ _ => .ok true none none [],
          readSource := fun _ => .missing, writeRaises := none,
          getJob := fun _ _ => {} }
        "write_business_report" { markdown_content := some "see ![c](a.png) here" }
        { project_id := "p", job_id := "job1", source_id := "s",
          collected_charts := [{ filename := "a.png", title := "t", sect := "",
                                 url := "/api/x/a.png" }],
          collected_analyses := [], iterations := 2, input_tokens := 3,
          output_tokens := 4, report_type := "rt" }).effects := by
  have h := c5_write_report
    { csvAnalyzer := fun _ _ _ => .ok true none none [],
      readSource := fun _ => .missing, writeRaises := none,
      getJob := fun _ _ => {} }
    { markdown_content := some "see ![c](a.png) here" }
    { project_id := "p", job_id := "job1", source_id := "s",
      collected_charts := [{ filename := "a.png", title := "t", sect := "",
                             url := "/api/x/a.png" }],
      collected_analyses := [], iterations := 2, input_tokens := 3,
      output_tokens := 4, report_type := "rt" } rfl
  refine ⟨h.1, h.2.1, ?_⟩
  have h3 := h.2.2
  simpa using h3

/-- Counterexample for C3: a normal, successful `search_source_content`
execution records no effect at all — in particular no job-record update
and no persisted artifact fragment. -/
theorem c3_counterexample :
    (BusinessReportToolExecutor.execute_tool
        { csvAnalyzer := fun _ _ _ => .ok true none none [],
          readSource := fun _ => .content "some source text", writeRaises := none,
          getJob := fun _ _ => {} }
        "search_source_content" { source_id := some "s1" }
        { project_id := "p", job_id := "j", source_id := "s",
          collected_charts := [], collected_analyses := [], iterations := 1,
          input_tokens := 0, output_tokens := 0, report_type := "rt" }).result.success
      = true
  ∧ (BusinessReportToolExecutor.execute_tool
        { csvAnalyzer := fun _ _ _ => .ok true none none [],
          readSource := fun _ => .content "some source text", writeRaises := none,
          getJob := fun _ _ => {} }
        "search_source_content" { source_id := some "s1" }
        { project_id := "p", job_id := "j", source_id := "s",
          collected_charts := [], collected_analyses := [], iterations := 1,
          input_tokens := 0, output_tokens := 0, report_type := "rt" }).effects
      = [] :=
  ⟨rfl, rfl⟩

/-- Claim C3 (amended): every tool handler reachable through an executor's
`execute_tool` performs at least one job-record update during its
execution — for `create_base_styles` and `create_slide` provided their
file write succeeds — except `search_source_content`, which performs no
job update and no file or artifact write at all. -/
theorem c3_amended_handlers_update (env : BREnv) (eenv : EmailEnv)
    (penv : PresEnv) (input : ToolInput) (ctx : BRContext)
    (ectx : EmailContext) (pctx : PresContext) :
    (BusinessReportToolExecutor.execute_tool env "plan_business_report" input ctx).effects.any
        Effect.isUpdate = true
  ∧ (BusinessReportToolExecutor.execute_tool env "analyze_csv_data" input ctx).effects.any
        Effect.isUpdate = true
  ∧ (BusinessReportToolExecutor.execute_tool env "write_business_report" input ctx).effects.any
        Effect.isUpdate = true
  ∧ (BusinessReportToolExecutor.execute_tool env "search_source_content" input ctx).effects
      = []
  ∧ (EmailToolExecutor.execute_tool eenv "plan_email_template" input ectx).effects.any
        Effect.isUpdate = true
  ∧ (EmailToolExecutor.execute_tool eenv "generate_email_image" input ectx).effects.any
        Effect.isUpdate = true
  ∧ (EmailToolExecutor.execute_tool eenv "write_email_code" input ectx).effects.any
        Effect.isUpdate = true
  ∧ (PresentationToolExecutor.execute_tool penv "plan_presentation" input pctx).effects.any
        Effect.isUpdate = true
  ∧ (PresentationToolExecutor.execute_tool penv "finalize_presentation" input pctx).effects.any
        Effect.isUpdate = true
  ∧ (penv.writeRaises = none →
      (PresentationToolExecutor.execute_tool penv "create_base_styles" input pctx).effects.any
          Effect.isUpdate = true
      ∧ (PresentationToolExecutor.execute_tool penv "create_slide" input pctx).effects.any
          Effect.isUpdate = true) := by
  refine ⟨?_, ?_, ?_, ?_, ?_, ?_, ?_, ?_, ?_, ?_⟩
  · simp [BusinessReportToolExecutor.execute_tool,
      BusinessReportToolExecutor.execute_plan_report, Effect.isUpdate]
  · rcases h : env.csvAnalyzer ctx.project_id (input.csv_source_id.getD "")
        (input.analysis_query.getD "") with m | ⟨success, err, summ, paths⟩
    · simp [BusinessReportToolExecutor.execute_tool,
        BusinessReportToolExecutor.execute_analyze_csv, h, Effect.isUpdate]
    · cases success <;>
        simp [BusinessReportToolExecutor.execute_tool,
          BusinessReportToolExecutor.execute_analyze_csv, h, Effect.isUpdate]
  · rcases h : env.writeRaises with _ | m <;>
      simp [BusinessReportToolExecutor.execute_tool,
        BusinessReportToolExecutor.execute_write_report, h, Effect.isUpdate]
  · rcases h : env.readSource (input.source_id.getD "") with _ | s | m <;>
      simp [BusinessReportToolExecutor.execute_tool,
        BusinessReportToolExecutor.execute_search_content, h]
  · simp [EmailToolExecutor.execute_tool, EmailToolExecutor.handle_plan,
      Effect.isUpdate]
  · rcases h : eenv.imagen (input.image_prompt.getD "") with m | ⟨success, images, err⟩
    · simp [EmailToolExecutor.execute_tool,
        EmailToolExecutor.handle_generate_image, h, Effect.isUpdate]
    · cases success <;> cases images <;>
        simp [EmailToolExecutor.execute_tool,
          EmailToolExecutor.handle_generate_image, h, Effect.isUpdate]
  · rcases h : eenv.writeRaises with _ | m <;>
      simp [EmailToolExecutor.execute_tool, EmailToolExecutor.handle_write_code,
        h, Effect.isUpdate]
  · simp [PresentationToolExecutor.execute_tool,
      PresentationToolExecutor.handle_plan, Effect.isUpdate]
  · rcases h : penv.finalizeRaises with _ | m <;>
      simp [PresentationToolExecutor.execute_tool,
        PresentationToolExecutor.handle_finalize, h, Effect.isUpdate]
  · intro hw
    constructor
    · simp [PresentationToolExecutor.execute_tool,
        PresentationToolExecutor.handle_create_base_styles, hw, Effect.isUpdate]
    · simp [PresentationToolExecutor.execute_tool,
        PresentationToolExecutor.handle_create_slide, hw, Effect.isUpdate]

/-- Witness for C3's amended claim at concrete environments. -/
theorem c3_amended_witness :
    (BusinessReportToolExecutor.execute_tool
        { csvAnalyzer := fun _ _ _ => .ok true none none [],
          readSource := fun _ => .missing, writeRaises := none,
          getJob := fun _ _ => {} }
        "plan_business_report" {}
        { project_id := "p", job_id := "j", source_id := "s",
          collected_charts := [], collected_analyses := [], iterations := 1,
          input_tokens := 0, output_tokens := 0, report_type := "rt" }).effects.any
        Effect.isUpdate = true
  ∧ (PresentationToolExecutor.execute_tool
        { writeRaises := none, finalizeRaises := none, getJob := fun _ _ => none }
        "create_slide" {}
        { project_id := "p", job_id := "j", source_id := "s",
          created_files := [], slides_info := [], iterations := 1,
          input_tokens := 0, output_tokens := 0 }).effects.any
        Effect.isUpdate = true := by
  have h := c3_amended_handlers_update
    { csvAnalyzer := fun _ _ _ => .ok true none none [],
      readSource := fun _ => .missing, writeRaises := none,
      getJob := fun _ _ => {} }
    { imagen := fun _ => .ok true [] none, writeRaises := none,
      getJob := fun _ _ => none }
    { writeRaises := none, finalizeRaises := none, getJob := fun _ _ => none }
    {}
    { project_id := "p", job_id := "j", source_id := "s",
      collected_charts := [], collected_analyses := [], iterations := 1,
      input_tokens := 0, output_tokens := 0, report_type := "rt" }
    { project_id := "p", job_id := "j", generated_images := [],
      iterations := 1, input_tokens := 0, output_tokens := 0 }
    { project_id := "p", job_id := "j", source_id := "s",
      created_files := [], slides_info := [], iterations := 1,
      input_tokens := 0, output_tokens := 0 }
  exact ⟨h.1, (h.2.2.2.2.2.2.2.2.2 rfl).2⟩

/-- Claim C8: on a successful `finalize_presentation` call, total_slides is
the number of created files named "slide_*.html", slide_files is exactly
that subset in ascending lexicographic order, and the total_slides value
supplied in the tool input does not affect the result. -/
theorem c8_finalize_presentation (penv : PresEnv) (input : ToolInput)
    (pctx : PresContext) (h : penv.finalizeRaises = none) :
    (PresentationToolExecutor.execute_tool penv "finalize_presentation" input pctx).result.success
      = true
  ∧ (PresentationToolExecutor.execute_tool penv "finalize_presentation" input pctx).result.total_slides
      = some ((pctx.created_files.filter
          (fun f => pyStartsWith f "slide_" && pyEndsWith f ".html")).length)
  ∧ (∃ sf,
      (PresentationToolExecutor.execute_tool penv "finalize_presentation" input pctx).result.slide_files
        = some sf
      ∧ sf.Perm (pctx.created_files.filter
          (fun f => pyStartsWith f "slide_" && pyEndsWith f ".html"))
      ∧ List.Sorted (· ≤ ·) sf)
  ∧ (∀ v, PresentationToolExecutor.execute_tool penv "finalize_presentation"
        { input with total_slides := v } pctx
      = PresentationToolExecutor.execute_tool penv "finalize_presentation" input pctx) := by
  refine ⟨?_, ?_, ?_, fun v => rfl⟩
  · simp [PresentationToolExecutor.execute_tool,
      PresentationToolExecutor.handle_finalize, h]
  · simp [PresentationToolExecutor.execute_tool,
      PresentationToolExecutor.handle_finalize, h]
  · refine ⟨List.insertionSort (· ≤ ·)
      (pctx.created_files.filter
        (fun f => pyStartsWith f "slide_" && pyEndsWith f ".html")), ?_, ?_, ?_⟩
    · simp [PresentationToolExecutor.execute_tool,
        PresentationToolExecutor.handle_finalize, h]
    · exact List.perm_insertionSort _ _
    · exact List.sorted_insertionSort _ _

/-- Witness for C8: three created files, two of them slides, out of order. -/
theorem c8_witness :
    penv8.finalizeRaises = none
  ∧ (PresentationToolExecutor.execute_tool penv8 "finalize_presentation"
        { total_slides := some 99 } pctx8).result.total_slides = some 2
  ∧ (∃ sf, (PresentationToolExecutor.execute_tool penv8 "finalize_presentation"
        { total_slides := some 99 } pctx8).result.slide_files = some sf
      ∧ sf.Perm (pctx8.created_files.filter
          (fun f => pyStartsWith f "slide_" && pyEndsWith f ".html"))
      ∧ List.Sorted (· ≤ ·) sf) := by
  refine ⟨rfl, ?_, (c8_finalize_presentation penv8 { total_slides := some 99 }
    pctx8 rfl).2.2.1⟩
  have h := (c8_finalize_presentation penv8 { total_slides := some 99 }
    pctx8 rfl).2.1
  rw [h]
  rfl

namespace BusinessReportAgentService

/-- The sum over a range grows by its top element. -/
theorem sumFrom_succ (f : Nat → Nat) :
    ∀ (n lo : Nat), sumFrom f lo (n + 1) = sumFrom f lo n + f (lo + n)
  | 0, lo => by simp [sumFrom]
  | n + 1, lo => by
    rw [sumFrom, sumFrom_succ f n (lo + 1), sumFrom]
    have h : lo + 1 + n = lo + (n + 1) := by omega
    rw [h, Nat.add_assoc]

/-- A terminating dispatch alone in the list is its own last element. -/
theorem exists_last_singleton (d : Dispatch) (r : BRResult)
    (h1 : d.isTerm = true) (h2 : d.result = r) :
    ∃ pre x, [d] = pre ++ [x] ∧ x.isTerm = true ∧ x.result = r
      ∧ ∀ y ∈ pre, y.isTerm = false :=
  ⟨[], d, rfl, h1, h2, by simp⟩

/-- Prepending a non-terminating dispatch keeps the last-element split. -/
theorem exists_last_cons (d0 : Dispatch) (rest : List Dispatch) (r : BRResult)
    (h0 : d0.isTerm = false)
    (h : ∃ pre x, rest = pre ++ [x] ∧ x.isTerm = true ∧ x.result = r
          ∧ ∀ y ∈ pre, y.isTerm = false) :
    ∃ pre x, d0 :: rest = pre ++ [x] ∧ x.isTerm = true ∧ x.result = r
      ∧ ∀ y ∈ pre, y.isTerm = false := by
  obtain ⟨pre, x, hrest, ht, hr2, hpre⟩ := h
  refine ⟨d0 :: pre, x, by rw [List.cons_append, ← hrest], ht, hr2, ?_⟩
  intro y hy
  rcases List.mem_cons.mp hy with rfl | hy
  · exact h0
  · exact hpre y hy

/-- Block processing: every dispatch of an iteration carries that
iteration's context; if no termination fired all dispatches are
non-terminating, and if one fired it is the last dispatch and delivers
the reported result. -/
theorem processBlocks_spec (env : BREnv) (pid jid sid rt : String)
    (it tin tout : Nat) (bs : List ContentBlock) :
    ∀ (charts : List ChartInfo) (analyses : List AnalysisInfo) (bo : BlocksOut),
      bo = processBlocks env pid jid sid rt it tin tout bs charts analyses →
      (∀ d ∈ bo.dispatched, d.iteration = it ∧ d.ctx.iterations = it
        ∧ d.ctx.input_tokens = tin ∧ d.ctx.output_tokens = tout)
      ∧ (bo.term = none → ∀ d ∈ bo.dispatched, d.isTerm = false)
      ∧ (∀ r, bo.term = some r →
          ∃ pre d, bo.dispatched = pre ++ [d] ∧ d.isTerm = true ∧ d.result = r
            ∧ ∀ x ∈ pre, x.isTerm = false) := by
  induction bs with
  | nil =>
    intro charts analyses bo hbo
    subst hbo
    simp [processBlocks]
  | cons b bs ih =>
    intro charts analyses bo hbo
    cases b with
    | text s =>
      subst hbo
      simpa only [processBlocks] using ih charts analyses _ rfl
    | tool_use name input bid =>
      subst hbo
      simp only [processBlocks]
      split
      · rename_i hterm
        refine ⟨?_, ?_, ?_⟩
        · intro d hd
          simp only [List.mem_singleton] at hd
          subst hd
          exact ⟨rfl, rfl, rfl, rfl⟩
        · intro hnone
          simp at hnone
        · intro r hr
          simp only [Option.some.injEq] at hr
          exact exists_last_singleton _ r hterm hr
      · rename_i hterm
        obtain ⟨ihf, ihn, ihs⟩ := ih _ _ _ rfl
        refine ⟨?_, ?_, ?_⟩
        · intro d hd
          rcases List.mem_cons.mp hd with rfl | hd
          · exact ⟨rfl, rfl, rfl, rfl⟩
          · exact ihf d hd
        · intro hnone d hd
          rcases List.mem_cons.mp hd with rfl | hd
          · exact (Bool.not_eq_true _) ▸ hterm
          · exact ihn hnone d hd
        · intro r hr
          exact exists_last_cons _ _ r ((Bool.not_eq_true _) ▸ hterm) (ihs r hr)

/-- The loop: at most `fuel` requests; on exhaustion the error result with
the accumulated totals and the error update; on termination the result of
the last dispatch; and per-dispatch contexts carrying the prefix sums of
response token usage. -/
theorem runLoop_spec (responses : Nat → ModelResponse) (env : BREnv)
    (pid jid sid rt : String) :
    ∀ (fuel it tin tout : Nat) (charts : List ChartInfo)
      (analyses : List AnalysisInfo) (out : LoopOut),
      out = runLoop responses env pid jid sid rt fuel it tin tout charts analyses →
      out.sends ≤ fuel
      ∧ (out.terminated = false →
          out.result = errorResult
            (tin + sumFrom (fun i => (responses i).input_tokens) it fuel)
            (tout + sumFrom (fun i => (responses i).output_tokens) it fuel)
          ∧ errorUpdate pid jid ∈ out.effects
          ∧ ∀ d ∈ out.dispatched, d.isTerm = false)
      ∧ (out.terminated = true →
          ∃ pre d, out.dispatched = pre ++ [d] ∧ d.isTerm = true
            ∧ out.result = d.result ∧ ∀ x ∈ pre, x.isTerm = false)
      ∧ (tin = sumFrom (fun i => (responses i).input_tokens) 1 (it - 1) →
         tout = sumFrom (fun i => (responses i).output_tokens) 1 (it - 1) →
         1 ≤ it →
         ∀ d ∈ out.dispatched,
           d.ctx.iterations = d.iteration
           ∧ d.ctx.input_tokens
               = sumFrom (fun i => (responses i).input_tokens) 1 d.iteration
           ∧ d.ctx.output_tokens
               = sumFrom (fun i => (responses i).output_tokens) 1 d.iteration) := by
  intro fuel
  induction fuel with
  | zero =>
    intro it tin tout charts analyses out hout
    subst hout
    simp [runLoop, sumFrom]
  | succ fuel ih =>
    intro it tin tout charts analyses out hout
    subst hout
    obtain ⟨pbf, pbn, pbs⟩ := processBlocks_spec env pid jid sid rt it
      (tin + (responses it).input_tokens) (tout + (responses it).output_tokens)
      (responses it).content_blocks charts analyses _ rfl
    have hstep : ∀ (f : Nat → Nat), 1 ≤ it →
        sumFrom f 1 it = sumFrom f 1 (it - 1) + f it := by
      intro f h3
      have h4 : it - 1 + 1 = it := by omega
      have h6 := sumFrom_succ f (it - 1) 1
      rw [h4] at h6
      have h5 : 1 + (it - 1) = it := by omega
      rw [h5] at h6
      exact h6
    simp only [runLoop]
    rcases hterm : (processBlocks env pid jid sid rt it
        (tin + (responses it).input_tokens) (tout + (responses it).output_tokens)
        (responses it).content_blocks charts analyses).term with _ | r
    · simp only [hterm]
      obtain ⟨ih1, ih2, ih3, ih4⟩ := ih (it + 1)
        (tin + (responses it).input_tokens) (tout + (responses it).output_tokens)
        (processBlocks env pid jid sid rt it
          (tin + (responses it).input_tokens) (tout + (responses it).output_tokens)
          (responses it).content_blocks charts analyses).charts
        (processBlocks env pid jid sid rt it
          (tin + (responses it).input_tokens) (tout + (responses it).output_tokens)
          (responses it).content_blocks charts analyses).analyses _ rfl
      refine ⟨Nat.succ_le_succ ih1, ?_, ?_, ?_⟩
      · intro hf
        obtain ⟨hr1, hr2, hr3⟩ := ih2 hf
        refine ⟨?_, List.mem_append.mpr (Or.inr hr2), ?_⟩
        · rw [hr1]
          have ha : tin + sumFrom (fun i => (responses i).input_tokens) it (fuel + 1)
              = tin + (responses it).input_tokens
                + sumFrom (fun i => (responses i).input_tokens) (it + 1) fuel := by
            rw [sumFrom]
            omega
          have hb : tout + sumFrom (fun i => (responses i).output_tokens) it (fuel + 1)
              = tout + (responses it).output_tokens
                + sumFrom (fun i => (responses i).output_tokens) (it + 1) fuel := by
            rw [sumFrom]
            omega
          rw [ha, hb]
        · intro d hd
          rcases List.mem_append.mp hd with hd | hd
          · exact pbn hterm d hd
          · exact hr3 d hd
      · intro ht
        obtain ⟨pre, d, hds, hd1, hd2, hd3⟩ := ih3 ht
        refine ⟨(processBlocks env pid jid sid rt it
            (tin + (responses it).input_tokens) (tout + (responses it).output_tokens)
            (responses it).content_blocks charts analyses).dispatched ++ pre, d,
          ?_, hd1, hd2, ?_⟩
        · rw [List.append_assoc, ← hds]
        · intro x hx
          rcases List.mem_append.mp hx with hx | hx
          · exact pbn hterm x hx
          · exact hd3 x hx
      · intro h1 h2 h3 d hd
        rcases List.mem_append.mp hd with hd | hd
        · obtain ⟨hda, hdb, hdc, hdd⟩ := pbf d hd
          refine ⟨by rw [hdb, hda], ?_, ?_⟩
          · rw [hdc, hda, hstep _ h3, h1]
          · rw [hdd, hda, hstep _ h3, h2]
        · refine ih4 ?_ ?_ (by omega) d hd
          · have h7 : it + 1 - 1 = it := by omega
            rw [h7, hstep _ h3, h1]
          · have h7 : it + 1 - 1 = it := by omega
            rw [h7, hstep _ h3, h2]
    · simp only [hterm]
      obtain ⟨pre, d, hds, hdt, hdr, hpre⟩ := pbs r hterm
      refine ⟨by omega, ?_, ?_, ?_⟩
      · intro hf
        simp at hf
      · intro _
        exact ⟨pre, d, hds, hdt, hdr.symm, hpre⟩
      · intro h1 h2 h3 d2 hd2
        obtain ⟨hda, hdb, hdc, hdd⟩ := pbf d2 hd2
        refine ⟨by rw [hdb, hda], ?_, ?_⟩
        · rw [hdc, hda, hstep _ h3, h1]
        · rw [hdd, hda, hstep _ h3, h2]

end BusinessReportAgentService

/-- Claim C1: a `generate_business_report` run sends at most
MAX_ITERATIONS = 10 model requests and always produces a value: when a
dispatched tool call reports termination, the run returns that call's
result dict immediately (it is the last dispatch, all earlier dispatches
are non-terminating, and no further tool results are processed);
otherwise, after the budget is exhausted, the run returns the error
result. -/
theorem c1_bounded_loop (responses : Nat → ModelResponse) (env : BREnv)
    (project_id source_id job_id report_type : String) :
    (BusinessReportAgentService.generate_business_report responses env
        project_id source_id job_id report_type).sends
      ≤ BusinessReportAgentService.MAX_ITERATIONS
  ∧ ((BusinessReportAgentService.generate_business_report responses env
        project_id source_id job_id report_type).terminated = true →
      ∃ pre d, (BusinessReportAgentService.generate_business_report responses env
          project_id source_id job_id report_type).dispatched = pre ++ [d]
        ∧ d.isTerm = true
        ∧ (BusinessReportAgentService.generate_business_report responses env
            project_id source_id job_id report_type).result = d.result
        ∧ ∀ x ∈ pre, x.isTerm = false)
  ∧ ((BusinessReportAgentService.generate_business_report responses env
        project_id source_id job_id report_type).terminated = false →
      (BusinessReportAgentService.generate_business_report responses env
          project_id source_id job_id report_type).result.success = false
      ∧ (BusinessReportAgentService.generate_business_report responses env
          project_id source_id job_id report_type).result.error_message
        = some "Agent reached maximum iterations (10)"
      ∧ ∀ d ∈ (BusinessReportAgentService.generate_business_report responses env
          project_id source_id job_id report_type).dispatched, d.isTerm = false) := by
  obtain ⟨s1, s2, s3, s4⟩ := BusinessReportAgentService.runLoop_spec responses env
    project_id job_id source_id report_type
    BusinessReportAgentService.MAX_ITERATIONS 1 0 0 [] [] _ rfl
  refine ⟨s1, fun ht => s3 ht, fun hf => ?_⟩
  obtain ⟨hr1, _, hr3⟩ := s2 hf
  have hsucc : (BusinessReportAgentService.generate_business_report responses env
      project_id source_id job_id report_type).result.success = false := by
    show (BusinessReportAgentService.runLoop responses env project_id job_id
      source_id report_type BusinessReportAgentService.MAX_ITERATIONS
      1 0 0 [] []).result.success = false
    rw [hr1]
    rfl
  have hmsg : (BusinessReportAgentService.generate_business_report responses env
      project_id source_id job_id report_type).result.error_message
      = some "Agent reached maximum iterations (10)" := by
    show (BusinessReportAgentService.runLoop responses env project_id job_id
      source_id report_type BusinessReportAgentService.MAX_ITERATIONS
      1 0 0 [] []).result.error_message = some "Agent reached maximum iterations (10)"
    rw [hr1]
    rfl
  exact ⟨hsucc, hmsg, hr3⟩

/-- Claim C4: every context handed to `execute_tool` during a run carries
its 1-based iteration number and the token totals of all responses of
iterations 1 through that iteration. -/
theorem c4_context_tokens (responses : Nat → ModelResponse) (env : BREnv)
    (project_id source_id job_id report_type : String) (d : Dispatch)
    (h : d ∈ (BusinessReportAgentService.generate_business_report responses env
        project_id source_id job_id report_type).dispatched) :
    d.ctx.iterations = d.iteration
  ∧ d.ctx.input_tokens = BusinessReportAgentService.sumFrom
      (fun i => (responses i).input_tokens) 1 d.iteration
  ∧ d.ctx.output_tokens = BusinessReportAgentService.sumFrom
      (fun i => (responses i).output_tokens) 1 d.iteration := by
  obtain ⟨-, -, -, s4⟩ := BusinessReportAgentService.runLoop_spec responses env
    project_id job_id source_id report_type
    BusinessReportAgentService.MAX_ITERATIONS 1 0 0 [] [] _ rfl
  exact s4 rfl rfl (by omega) d h

/-- Claim C6: when the 10-iteration budget is exhausted without a
termination tool firing, the run updates the job to status "error" with
the maximum-iterations message and returns the error dict carrying
success False, iterations 10 and the accumulated token usage. -/
theorem c6_budget_error (responses : Nat → ModelResponse) (env : BREnv)
    (project_id source_id job_id report_type : String)
    (h : (BusinessReportAgentService.generate_business_report responses env
        project_id source_id job_id report_type).terminated = false) :
    (BusinessReportAgentService.generate_business_report responses env
        project_id source_id job_id report_type).result.success = false
  ∧ (BusinessReportAgentService.generate_business_report responses env
        project_id source_id job_id report_type).result.error_message
      = some "Agent reached maximum iterations (10)"
  ∧ (BusinessReportAgentService.generate_business_report responses env
        project_id source_id job_id report_type).result.iterations = some 10
  ∧ (BusinessReportAgentService.generate_business_report responses env
        project_id source_id job_id report_type).result.usage
      = some (BusinessReportAgentService.sumFrom
          (fun i => (responses i).input_tokens) 1 10,
        BusinessReportAgentService.sumFrom
          (fun i => (responses i).output_tokens) 1 10)
  ∧ Effect.updateJob JobKind.businessReport project_id job_id
      { status := some "error",
        error_message := some "Agent reached maximum iterations (10)" }
      ∈ (BusinessReportAgentService.generate_business_report responses env
        project_id source_id job_id report_type).effects := by
  obtain ⟨-, s2, -, -⟩ := BusinessReportAgentService.runLoop_spec responses env
    project_id job_id source_id report_type
    BusinessReportAgentService.MAX_ITERATIONS 1 0 0 [] [] _ rfl
  obtain ⟨hr1, hr2, -⟩ := s2 h
  refine ⟨?_, ?_, ?_, ?_, ?_⟩
  · show (BusinessReportAgentService.runLoop responses env project_id job_id
      source_id report_type BusinessReportAgentService.MAX_ITERATIONS
      1 0 0 [] []).result.success = false
    rw [hr1]
    rfl
  · show (BusinessReportAgentService.runLoop responses env project_id job_id
      source_id report_type BusinessReportAgentService.MAX_ITERATIONS
      1 0 0 [] []).result.error_message = some "Agent reached maximum iterations (10)"
    rw [hr1]
    rfl
  · show (BusinessReportAgentService.runLoop responses env project_id job_id
      source_id report_type BusinessReportAgentService.MAX_ITERATIONS
      1 0 0 [] []).result.iterations = some 10
    rw [hr1]
    rfl
  · show (BusinessReportAgentService.runLoop responses env project_id job_id
      source_id report_type BusinessReportAgentService.MAX_ITERATIONS
      1 0 0 [] []).result.usage
      = some (BusinessReportAgentService.sumFrom
          (fun i => (responses i).input_tokens) 1 10,
        BusinessReportAgentService.sumFrom
          (fun i => (responses i).output_tokens) 1 10)
    rw [hr1]
    simp [BusinessReportAgentService.errorResult,
      BusinessReportAgentService.MAX_ITERATIONS]
  · exact List.mem_cons_of_mem _ hr2

/-- Witness for C1: a run that terminates at its first dispatch and a run
that exhausts the budget. -/
theorem c1_witness :
    (∃ pre d, (BusinessReportAgentService.generate_business_report termResponses
        baseEnv "p" "s" "j" "rt").dispatched = pre ++ [d]
      ∧ d.isTerm = true
      ∧ (BusinessReportAgentService.generate_business_report termResponses
          baseEnv "p" "s" "j" "rt").result = d.result
      ∧ ∀ x ∈ pre, x.isTerm = false)
  ∧ ((BusinessReportAgentService.generate_business_report quietResponses
        baseEnv "p" "s" "j" "rt").result.success = false
    ∧ (BusinessReportAgentService.generate_business_report quietResponses
        baseEnv "p" "s" "j" "rt").result.error_message
      = some "Agent reached maximum iterations (10)"
    ∧ ∀ d ∈ (BusinessReportAgentService.generate_business_report quietResponses
        baseEnv "p" "s" "j" "rt").dispatched, d.isTerm = false) :=
  ⟨(c1_bounded_loop termResponses baseEnv "p" "s" "j" "rt").2.1 rfl,
   (c1_bounded_loop quietResponses baseEnv "p" "s" "j" "rt").2.2 rfl⟩

/-- Witness for C4: the concrete dispatch of the terminating run carries
iteration 1 and the token totals of response 1. -/
theorem c4_witness :
    c4Dispatch ∈ (BusinessReportAgentService.generate_business_report
        termResponses baseEnv "p" "s" "j" "rt").dispatched
  ∧ c4Dispatch.ctx.iterations = c4Dispatch.iteration
  ∧ c4Dispatch.ctx.input_tokens = BusinessReportAgentService.sumFrom
      (fun i => (termResponses i).input_tokens) 1 c4Dispatch.iteration
  ∧ c4Dispatch.ctx.output_tokens = BusinessReportAgentService.sumFrom
      (fun i => (termResponses i).output_tokens) 1 c4Dispatch.iteration := by
  have hlist : (BusinessReportAgentService.generate_business_report
      termResponses baseEnv "p" "s" "j" "rt").dispatched = [c4Dispatch] := rfl
  have hmem : c4Dispatch ∈ (BusinessReportAgentService.generate_business_report
      termResponses baseEnv "p" "s" "j" "rt").dispatched := by
    rw [hlist]
    exact List.mem_singleton.mpr rfl
  exact ⟨hmem,
    c4_context_tokens termResponses baseEnv "p" "s" "j" "rt" c4Dispatch hmem⟩

/-- Witness for C6: the budget-exhausting run returns the error dict. -/
theorem c6_witness :
    (BusinessReportAgentService.generate_business_report quietResponses
        baseEnv "p" "s" "j" "rt").result.success = false
  ∧ (BusinessReportAgentService.generate_business_report quietResponses
        baseEnv "p" "s" "j" "rt").result.error_message
      = some "Agent reached maximum iterations (10)"
  ∧ (BusinessReportAgentService.generate_business_report quietResponses
        baseEnv "p" "s" "j" "rt").result.iterations = some 10
  ∧ (BusinessReportAgentService.generate_business_report quietResponses
        baseEnv "p" "s" "j" "rt").result.usage
      = some (BusinessReportAgentService.sumFrom
          (fun i => (quietResponses i).input_tokens) 1 10,
        BusinessReportAgentService.sumFrom
          (fun i => (quietResponses i).output_tokens) 1 10)
  ∧ Effect.updateJob JobKind.businessReport "p" "j"
      { status := some "error",
        error_message := some "Agent reached maximum iterations (10)" }
      ∈ (BusinessReportAgentService.generate_business_report quietResponses
        baseEnv "p" "s" "j" "rt").effects :=
  c6_budget_error quietResponses baseEnv "p" "s" "j" "rt" rfl
